import Mathlib

/-!
Shallow embedding of the telegram-video bot's broadcast scheduler,
conversation state machine and access gate (src/main.py, src/database.py).

Conventions of the embedding:
* SQL tables become Lean lists of rows inside a `Db` record; timestamps are
  naturals supplied as an explicit `now` argument (the SQL layer reads
  CURRENT_TIMESTAMP at query time).
* The Telegram transport is an oracle `transport : Delivery → SendResult`;
  a delivery attempt is recorded in the result so that "no send was
  attempted" is observable.
* Python's `uuid.uuid4()` inside `add_video` is lifted to an
  environment-supplied fresh id, and `bot.get_me().username or ""` to an
  environment field `botUsername`.
* The per-user state dictionary `user_states` (a dict from user id to a
  tag-plus-payload dict) becomes a function `Nat → Option UState` where the
  tagged union `UState` enumerates exactly the payload shapes the source
  stores: `awaiting_name {file_id}`, `awaiting_description {file_id, name}`,
  `awaiting_channel {broadcast_type=channel}`, and
  `awaiting_content {broadcast_type=channel, target_channel, channel_name,
  initiator_id, chat_id}` (`chat_id` is stored by the source but never read
  back).
-/

/-- A row of the `scheduled_broadcasts` table. -/
structure Broadcast where
  id : Nat
  adminId : Nat
  targetChannel : String
  contentType : String
  content : String
  mediaFileId : Option String
  scheduledTime : Nat
  status : String
deriving DecidableEq, Repr

/-- A row of the `users` table. -/
structure UserRow where
  userId : Nat
  username : Option String
  firstName : Option String
  joinedAt : Nat
  lastActivity : Nat
deriving DecidableEq, Repr

/-- A row of the `banned_users` table. -/
structure BanRecord where
  userId : Nat
  bannedBy : Nat
  reason : String
deriving DecidableEq, Repr

/-- A row of the `user_activity` table. -/
structure ActivityEntry where
  userId : Nat
  action : String
  details : String
deriving DecidableEq, Repr

/-- A row of the `videos` table. -/
structure Video where
  id : String
  fileId : String
  name : String
  description : String
deriving DecidableEq, Repr

/-- The persistent store (class `Database` in src/database.py). -/
structure Db where
  users : List UserRow
  bannedUsers : List BanRecord
  userActivity : List ActivityEntry
  videos : List Video
  broadcasts : List Broadcast
deriving DecidableEq, Repr

/-- `Database.is_user_banned` (database.py:526): SELECT from banned_users
WHERE user_id = ?, nonempty result. -/
def Db.is_user_banned (db : Db) (user_id : Nat) : Bool :=
  db.bannedUsers.any (fun b => b.userId == user_id)

/-- `Database.add_user` (database.py:304): INSERT OR IGNORE a fresh row, then
UPDATE last_activity and COALESCE the display fields for the row with this id. -/
def Db.add_user (db : Db) (user_id : Nat) (username firstName : Option String)
    (now : Nat) : Db :=
  let inserted :=
    if db.users.any (fun u => u.userId == user_id) then db.users
    else db.users ++ [⟨user_id, username, firstName, now, now⟩]
  { db with users := inserted.map (fun u =>
      if u.userId == user_id then
        { u with lastActivity := now,
                 username := username.orElse (fun _ => u.username),
                 firstName := firstName.orElse (fun _ => u.firstName) }
      else u) }

/-- `Database.log_user_activity` (database.py:556): INSERT a row into
user_activity. -/
def Db.log_user_activity (db : Db) (user_id : Nat) (action details : String) : Db :=
  { db with userActivity := db.userActivity ++ [⟨user_id, action, details⟩] }

/-- `Database.add_video` (database.py:381): INSERT the row; the generated
uuid is the `video_id` argument here (see module comment), and it is also
the return value of the source method. -/
def Db.add_video (db : Db) (video_id file_id name description : String) : Db :=
  { db with videos := db.videos ++ [⟨video_id, file_id, name, description⟩] }

/-- `Database.update_broadcast_status` (database.py:955): UPDATE
scheduled_broadcasts SET status = ? WHERE id = ?. -/
def Db.update_broadcast_status (db : Db) (broadcast_id : Nat) (status : String) : Db :=
  { db with broadcasts := db.broadcasts.map (fun b =>
      if b.id == broadcast_id then { b with status := status } else b) }

/-- Insertion step for ORDER BY scheduled_time ASC. -/
def insertByTime (b : Broadcast) : List Broadcast → List Broadcast
  | [] => [b]
  | c :: rest =>
    if b.scheduledTime ≤ c.scheduledTime then b :: c :: rest
    else c :: insertByTime b rest

/-- ORDER BY scheduled_time ASC, as a stable insertion sort. -/
def sortByTime : List Broadcast → List Broadcast
  | [] => []
  | b :: rest => insertByTime b (sortByTime rest)

/-- `Database.get_pending_broadcasts` (database.py:926): SELECT ... WHERE
status = pending AND scheduled_time <= now ORDER BY scheduled_time ASC.
The time filter runs in the store, against the query-time clock `now`. -/
def Db.get_pending_broadcasts (db : Db) (now : Nat) : List Broadcast :=
  sortByTime (db.broadcasts.filter
    (fun b => b.status == "pending" && decide (b.scheduledTime ≤ now)))

/-- A normalized channel identifier: either a Telegram handle string or a
numeric chat id (the result of Python `int(...)`). -/
inductive ChannelId where
  | byHandle (s : String)
  | byChatId (i : Int)
deriving DecidableEq, Repr

/-- Python `s.startswith(p)`, as a prefix test on the code points.  (Defined
over `String.data` so that every use is kernel-reducible.) -/
def strStartsWith (s p : String) : Bool :=
  p.data.isPrefixOf s.data

/-- Python `s.lower()` over the code points. -/
def strToLower (s : String) : String :=
  ⟨s.data.map Char.toLower⟩

/-- Digit fold underlying the numeric parse. -/
def digitsToNat (cs : List Char) : Nat :=
  cs.foldl (fun n c => n * 10 + (c.toNat - 48)) 0

/-- Python `int(s)` for a string that starts with a minus sign: the sign
followed by a nonempty run of digits parses to the negated value, anything
else raises ValueError.  (CPython also tolerates surrounding whitespace and
underscore digit separators; no claim depends on those inputs.) -/
def parseNegInt (s : String) : Except String Int :=
  let digits := s.data.drop 1
  if digits.length ≠ 0 && digits.all Char.isDigit then
    Except.ok (-(Int.ofNat (digitsToNat digits)))
  else Except.error ("invalid literal for int: " ++ s)

/-- The channel-identifier normalization repeated verbatim at
main.py:148-154, main.py:2009-2015 and main.py:2151-2157: a leading at-sign
passes through, a leading minus goes through `int(...)`, anything else gets
an at-sign prefixed.  The `int` parse can raise, which surfaces as the
`Except.error` case (caught by each call site's enclosing handler). -/
def normalize_channel (target_channel : String) : Except String ChannelId :=
  if strStartsWith target_channel "@" then
    Except.ok (ChannelId.byHandle target_channel)
  else if strStartsWith target_channel "-" then
    (parseNegInt target_channel).map ChannelId.byChatId
  else
    Except.ok (ChannelId.byHandle ("@" ++ target_channel))

/-- A send attempted against the transport (`bot.send_photo` /
`bot.send_message`): the normalized channel, the kind of send, the body
(caption or text), and the media file id when present. -/
structure Delivery where
  channel : ChannelId
  kind : String
  body : String
  media : Option String
deriving DecidableEq, Repr

/-- Outcome of one transport send: success, an `ApiTelegramException`, or
any other exception. -/
inductive SendResult where
  | ok
  | apiError (msg : String)
  | otherError (msg : String)
deriving DecidableEq, Repr

/-- Python truthiness of the `media_file_id` column: NULL and the empty
string are falsy. -/
def truthy : Option String → Bool
  | none => false
  | some s => s ≠ ""

/-- Result of handling one due broadcast row: the store afterwards, the
sends attempted, and the status the row was written back with. -/
structure ItemResult where
  db : Db
  deliveries : List Delivery
  statusWritten : String
deriving Repr

/-- The per-item body of the scheduler loop (main.py:141-186): inside the
per-item try, normalize the channel, send photo (only when a truthy media
file id is present) or text, then write status completed plus a sent log
entry; any exception in the body lands in the per-item except, which writes
status failed plus a failure log entry naming the admin. -/
def process_one_broadcast (transport : Delivery → SendResult) (db : Db)
    (b : Broadcast) : ItemResult :=
  let onFail := fun (msg : String) (ds : List Delivery) =>
    let db1 := db.update_broadcast_status b.id "failed"
    let db2 := db1.log_user_activity b.adminId "scheduled_broadcast_failed"
      ("Failed to send to " ++ b.targetChannel ++ ": " ++ msg)
    ItemResult.mk db2 ds "failed"
  let onSent := fun (ds : List Delivery) =>
    let db1 := db.update_broadcast_status b.id "completed"
    let db2 := db1.log_user_activity b.adminId "scheduled_broadcast_sent"
      ("Scheduled broadcast sent to " ++ b.targetChannel)
    ItemResult.mk db2 ds "completed"
  match normalize_channel b.targetChannel with
  | Except.error msg => onFail msg []
  | Except.ok ch =>
    if b.contentType == "photo" && truthy b.mediaFileId then
      let d : Delivery := ⟨ch, "photo", b.content, b.mediaFileId⟩
      match transport d with
      | SendResult.ok => onSent [d]
      | SendResult.apiError m => onFail m [d]
      | SendResult.otherError m => onFail m [d]
    else if b.contentType == "text" then
      let d : Delivery := ⟨ch, "text", b.content, none⟩
      match transport d with
      | SendResult.ok => onSent [d]
      | SendResult.apiError m => onFail m [d]
      | SendResult.otherError m => onFail m [d]
    else
      onSent []

/-- Result of one full poll cycle: the store afterwards, all sends
attempted, and per item (in fetch order) the pair of row id and the status
written back for it. -/
structure CycleResult where
  db : Db
  deliveries : List Delivery
  outcomes : List (Nat × String)
deriving Repr

/-- The for-loop of one scheduler cycle over an already-fetched item list. -/
def run_cycle_items (transport : Delivery → SendResult) (db : Db) :
    List Broadcast → CycleResult
  | [] => ⟨db, [], []⟩
  | b :: rest =>
    let r := process_one_broadcast transport db b
    let k := run_cycle_items transport r.db rest
    ⟨k.db, r.deliveries ++ k.deliveries, (b.id, r.statusWritten) :: k.outcomes⟩

/-- One iteration of the `process_scheduled_broadcasts` while-loop
(main.py:135-189): fetch the due pending rows, then run the per-item loop. -/
def process_scheduled_broadcasts_cycle (transport : Delivery → SendResult)
    (db : Db) (now : Nat) : CycleResult :=
  run_cycle_items transport db (db.get_pending_broadcasts now)

/-- The tagged union of payload shapes the source stores in `user_states`
(main.py:2095, main.py:2216, main.py:638, main.py:1932).  `awaitingChannel`
and `awaitingContent` carry `broadcast_type = channel` in the source dict;
`chatId` is stored at main.py:1938 and never read back. -/
inductive UState where
  | awaitingName (fileId : String)
  | awaitingDescription (fileId : String) (name : String)
  | awaitingChannel
  | awaitingContent (targetChannel : String) (channelName : String)
      (initiatorId : Nat) (chatId : Nat)
deriving DecidableEq, Repr

/-- The in-memory `user_states` dict, keyed by user id; absent key = Idle. -/
def UStates := Nat → Option UState

/-- `user_states[k] = v`. -/
def setState (m : UStates) (k : Nat) (v : UState) : UStates :=
  fun j => if j = k then some v else m j

/-- `del user_states[k]`. -/
def delState (m : UStates) (k : Nat) : UStates :=
  fun j => if j = k then none else m j

/-- Environment the handlers close over: the ADMINS set, OWNER id, the
transport, the bot username obtained from `get_me` (already defaulted with
`or ""`), and the fresh uuid the next `add_video` call will generate. -/
structure Env where
  admins : List Nat
  owner : Nat
  transport : Delivery → SendResult
  botUsername : String
  freshVideoId : String

/-- `user_id not in ADMINS and user_id != OWNER`, the non-admin test the
handlers repeat. -/
def Env.notAdmin (env : Env) (user_id : Nat) : Bool :=
  !(env.admins.contains user_id) && user_id != env.owner

/-- What a handler invocation did, abstracting the reply texts. -/
inductive Outcome where
  | banned
  | ignored
  | adminOnly
  | invalidState
  | validationFailure
  | broadcastSent
  | broadcastFailed
  | namePrompt
  | descriptionPrompt
  | videoFinalized (videoId : String) (shareableUrl : String)
  | noUsername
deriving DecidableEq, Repr

/-- Result of one handler invocation: store, conversation states, sends
attempted, and the abstract outcome replied to the user. -/
structure HRes where
  db : Db
  states : UStates
  deliveries : List Delivery
  outcome : Outcome

/-- `check_user_access` (main.py:89-105): upsert the user row, append the
activity entry "Attempted: action", then return the negated ban verdict.
The store writes are assumed to succeed here; `check_user_access_f` below
models the fallible log write. -/
def check_user_access (db : Db) (now : Nat) (user_id : Nat)
    (username firstName : Option String) (action : String) : Db × Bool :=
  let db1 := db.add_user user_id username firstName now
  let db2 := db1.log_user_activity user_id action ("Attempted: " ++ action)
  if db2.is_user_banned user_id then (db2, false) else (db2, true)

/-- `check_user_access` with the activity-log INSERT allowed to fail
(`logOk = false` means the underlying write raises).  The source wraps
neither the call at main.py:99 nor the body of `Database.log_user_activity`
(database.py:556) in try/except, so a raise propagates out of the function
before the ban check runs. -/
def check_user_access_f (logOk : Bool) (db : Db) (now : Nat) (user_id : Nat)
    (username firstName : Option String) (action : String) :
    Except String (Db × Bool) :=
  let db1 := db.add_user user_id username firstName now
  if logOk then
    let db2 := db1.log_user_activity user_id action ("Attempted: " ++ action)
    if db2.is_user_banned user_id then Except.ok (db2, false)
    else Except.ok (db2, true)
  else Except.error "log write failed"

/-- Shared tail of the two foreground broadcast-content paths: normalize the
channel inside try, attempt the send, log the outcome, and delete the state
in every branch of the try/except ladder (success, ApiTelegramException,
generic exception — and the normalize ValueError lands in the generic
except). -/
def deliverBroadcastContent (env : Env) (db : Db) (states : UStates)
    (user_id : Nat) (target_channel channel_name : String)
    (kindLabel kindWord : String) (body : String) (media : Option String) : HRes :=
  match normalize_channel target_channel with
  | Except.error msg =>
    ⟨db.log_user_activity user_id (kindLabel ++ "_broadcast_error")
        ("Unexpected error: " ++ msg),
     delState states user_id, [], Outcome.broadcastFailed⟩
  | Except.ok ch =>
    let d : Delivery := ⟨ch, kindLabel, body, media⟩
    match env.transport d with
    | SendResult.ok =>
      ⟨db.log_user_activity user_id (kindLabel ++ "_broadcast")
          (kindWord ++ " sent to " ++ channel_name ++ " (" ++ target_channel ++ ")"),
       delState states user_id, [d], Outcome.broadcastSent⟩
    | SendResult.apiError m =>
      ⟨db.log_user_activity user_id (kindLabel ++ "_broadcast_failed")
          ("Failed to send to " ++ target_channel ++ ": " ++ m),
       delState states user_id, [d], Outcome.broadcastFailed⟩
    | SendResult.otherError m =>
      ⟨db.log_user_activity user_id (kindLabel ++ "_broadcast_error")
          ("Unexpected error: " ++ m),
       delState states user_id, [d], Outcome.broadcastFailed⟩

/-- `handle_photo` (main.py:1963-2074).  Ban check first; then, when the
stored state has `broadcast_type = channel`, the guard at main.py:1981
demands state `awaiting_content`, matching `initiator_id` and admin rights,
deleting the state and replying invalid otherwise; then the 1024-character
caption cap (state kept); then the send with per-branch state cleanup.
Any other situation falls through with no effect. -/
def handle_photo (env : Env) (db : Db) (states : UStates) (now : Nat)
    (user_id : Nat) (username firstName : Option String)
    (photoFileId : String) (caption : Option String) : HRes :=
  let p := check_user_access db now user_id username firstName "photo_upload"
  if p.2 = false then ⟨p.1, states, [], Outcome.banned⟩ else
  match states user_id with
  | some UState.awaitingChannel =>
    ⟨p.1, delState states user_id, [], Outcome.invalidState⟩
  | some (UState.awaitingContent target_channel channel_name initiator _) =>
    if initiator != user_id || env.notAdmin user_id then
      ⟨p.1, delState states user_id, [], Outcome.invalidState⟩
    else
      let cap := caption.getD ""
      if cap.length > 1024 then ⟨p.1, states, [], Outcome.validationFailure⟩
      else deliverBroadcastContent env p.1 states user_id target_channel
        channel_name "photo" "Photo" cap (some photoFileId)
  | some (UState.awaitingName _) => ⟨p.1, states, [], Outcome.ignored⟩
  | some (UState.awaitingDescription _ _) => ⟨p.1, states, [], Outcome.ignored⟩
  | none => ⟨p.1, states, [], Outcome.ignored⟩

/-- `handle_video` (main.py:2077-2101).  Ban check, admin check, then the
state for the sender is unconditionally overwritten with
`awaiting_name {file_id}` — the source has no check for an existing state. -/
def handle_video (env : Env) (db : Db) (states : UStates) (now : Nat)
    (user_id : Nat) (username firstName : Option String)
    (videoFileId : String) : HRes :=
  let p := check_user_access db now user_id username firstName "video_upload"
  if p.2 = false then ⟨p.1, states, [], Outcome.banned⟩ else
  if env.notAdmin user_id then ⟨p.1, states, [], Outcome.adminOnly⟩ else
  ⟨p.1, setState states user_id (UState.awaitingName videoFileId), [],
   Outcome.namePrompt⟩

/-- `handle_text` (main.py:2104-2246).  Ban check; no state means return.
The channel branch fires only for `broadcast_type = channel` AND state
`awaiting_content` (main.py:2123-2125), with the identity/admin guard, the
4096-character cap (state kept) and the send with per-branch cleanup.
Otherwise `awaiting_name` captures the name, `awaiting_description`
finalizes the video: description is the text unless it lowercases to
"skip"; the video row is inserted; if the bot username is empty the state
is deleted and no url is produced, else the shareable url is minted from
the fresh id and the state is deleted. -/
def handle_text (env : Env) (db : Db) (states : UStates) (now : Nat)
    (user_id : Nat) (username firstName : Option String)
    (text : String) : HRes :=
  let p := check_user_access db now user_id username firstName "text_input"
  if p.2 = false then ⟨p.1, states, [], Outcome.banned⟩ else
  match states user_id with
  | none => ⟨p.1, states, [], Outcome.ignored⟩
  | some (UState.awaitingContent target_channel channel_name initiator _) =>
    if initiator != user_id || env.notAdmin user_id then
      ⟨p.1, delState states user_id, [], Outcome.invalidState⟩
    else if text.length > 4096 then
      ⟨p.1, states, [], Outcome.validationFailure⟩
    else deliverBroadcastContent env p.1 states user_id target_channel
      channel_name "text" "Text" text none
  | some (UState.awaitingName fileId) =>
    ⟨p.1, setState states user_id (UState.awaitingDescription fileId text), [],
     Outcome.descriptionPrompt⟩
  | some (UState.awaitingDescription fileId name) =>
    let description := if strToLower text == "skip" then "" else text
    let db1 := (p.1).add_video env.freshVideoId fileId name description
    if env.botUsername == "" then
      ⟨db1, delState states user_id, [], Outcome.noUsername⟩
    else
      ⟨db1, delState states user_id, [],
       Outcome.videoFinalized env.freshVideoId
         ("https://t.me/" ++ env.botUsername ++ "?start=" ++ env.freshVideoId)⟩
  | some UState.awaitingChannel => ⟨p.1, states, [], Outcome.ignored⟩

/-! ### Concrete fixtures used to instantiate the theorems -/

/-- A transport that accepts every send. -/
def trOk : Delivery → SendResult := fun _ => SendResult.ok

/-- A transport that rejects sends to the handle `@a` and accepts the rest. -/
def trFailA : Delivery → SendResult := fun d =>
  if d.channel = ChannelId.byHandle "@a" then SendResult.otherError "boom"
  else SendResult.ok

def bTextA : Broadcast := ⟨1, 9, "@a", "text", "hello", none, 5, "pending"⟩

def bTextB : Broadcast := ⟨2, 9, "@b", "text", "hey", none, 6, "pending"⟩

def bPhotoNoMedia : Broadcast := ⟨3, 9, "@c", "photo", "cap", some "", 4, "pending"⟩

def bBadChannel : Broadcast := ⟨4, 9, "-x", "photo", "cap", none, 3, "pending"⟩

def dbSched : Db := ⟨[], [], [], [], [bTextA, bTextB]⟩

def dbPhotoNoMedia : Db := ⟨[], [], [], [], [bPhotoNoMedia]⟩

def dbBadChannel : Db := ⟨[], [], [], [], [bBadChannel]⟩

def dbEmpty : Db := ⟨[], [], [], [], []⟩

/-- A store in which user 7 is banned. -/
def dbBanned7 : Db := ⟨[], [⟨7, 1, "spam"⟩], [], [], []⟩

/-- Admin 5, owner 1, a transport that accepts, a bot username and the next
fresh video id. -/
def envEx : Env := ⟨[5], 1, trOk, "mybot", "vid-1"⟩

/-- Admin 5 mid-broadcast (state bound to initiator 5). -/
def statesBroadcast5 : UStates := fun k =>
  if k = 5 then some (UState.awaitingContent "@chan" "Channel 1" 5 99) else none

/-- A state keyed by user 7 but bound to initiator 5. -/
def statesHijack : UStates := fun k =>
  if k = 7 then some (UState.awaitingContent "@chan" "Channel 1" 5 99) else none

def statesIdle : UStates := fun _ => none

/-- A 1025-character caption, one over the photo-caption transport limit. -/
def longCap : Option String := some ⟨List.replicate 1025 'a'⟩

/-! ### Helper lemmas about the store operations and the access gate -/

theorem bannedUsers_add_user (db : Db) (uid : Nat) (un fn : Option String)
    (now : Nat) : (db.add_user uid un fn now).bannedUsers = db.bannedUsers := rfl

theorem bannedUsers_log (db : Db) (uid : Nat) (a d : String) :
    (db.log_user_activity uid a d).bannedUsers = db.bannedUsers := rfl

theorem is_user_banned_add_user (db : Db) (uid k : Nat) (un fn : Option String)
    (now : Nat) :
    (db.add_user uid un fn now).is_user_banned k = db.is_user_banned k := rfl

theorem is_user_banned_log (db : Db) (uid k : Nat) (a d : String) :
    (db.log_user_activity uid a d).is_user_banned k = db.is_user_banned k := rfl

theorem check_user_access_fst (db : Db) (now uid : Nat) (un fn : Option String)
    (act : String) :
    (check_user_access db now uid un fn act).1 =
      (db.add_user uid un fn now).log_user_activity uid act
        ("Attempted: " ++ act) := by
  unfold check_user_access
  dsimp only
  split <;> rfl

theorem check_user_access_snd (db : Db) (now uid : Nat) (un fn : Option String)
    (act : String) :
    (check_user_access db now uid un fn act).2 = !db.is_user_banned uid := by
  unfold check_user_access
  dsimp only
  split
  case isTrue h =>
    rw [is_user_banned_log, is_user_banned_add_user] at h
    simp [h]
  case isFalse h =>
    rw [is_user_banned_log, is_user_banned_add_user] at h
    simp at h
    simp [h]

theorem check_user_access_bannedUsers (db : Db) (now uid : Nat)
    (un fn : Option String) (act : String) :
    (check_user_access db now uid un fn act).1.bannedUsers = db.bannedUsers := by
  rw [check_user_access_fst]; rfl

theorem check_user_access_videos (db : Db) (now uid : Nat)
    (un fn : Option String) (act : String) :
    (check_user_access db now uid un fn act).1.videos = db.videos := by
  rw [check_user_access_fst]; rfl

theorem check_user_access_activity (db : Db) (now uid : Nat)
    (un fn : Option String) (act : String) :
    (check_user_access db now uid un fn act).1.userActivity =
      db.userActivity ++ [⟨uid, act, "Attempted: " ++ act⟩] := by
  rw [check_user_access_fst]; rfl

/-! ### Helper lemmas about one scheduler item -/

/-- The per-item body always writes back a terminal status, and the store it
returns is the status update (the activity insert leaves `broadcasts`
unchanged). -/
theorem process_one_broadcast_shape (tr : Delivery → SendResult) (db : Db)
    (b : Broadcast) :
    ((process_one_broadcast tr db b).statusWritten = "completed" ∨
      (process_one_broadcast tr db b).statusWritten = "failed") ∧
    (process_one_broadcast tr db b).db.broadcasts =
      (db.update_broadcast_status b.id
        (process_one_broadcast tr db b).statusWritten).broadcasts := by
  unfold process_one_broadcast
  dsimp only
  cases normalize_channel b.targetChannel with
  | error msg => exact ⟨Or.inr rfl, rfl⟩
  | ok ch =>
    by_cases h1 : (b.contentType == "photo" && truthy b.mediaFileId) = true
    · simp only [h1, if_true]
      cases tr ⟨ch, "photo", b.content, b.mediaFileId⟩ <;>
        exact ⟨by simp, rfl⟩
    · simp only [h1, if_false, Bool.false_eq_true]
      by_cases h2 : (b.contentType == "text") = true
      · simp only [h2, if_true]
        cases tr ⟨ch, "text", b.content, none⟩ <;> exact ⟨by simp, rfl⟩
      · simp only [h2, if_false, Bool.false_eq_true]
        exact ⟨Or.inl (by trivial), rfl⟩

/-- The status written for an item and the sends attempted for it do not
depend on the store the item is processed against. -/
theorem process_one_broadcast_indep (tr : Delivery → SendResult) (db db1 : Db)
    (b : Broadcast) :
    (process_one_broadcast tr db b).statusWritten =
      (process_one_broadcast tr db1 b).statusWritten ∧
    (process_one_broadcast tr db b).deliveries =
      (process_one_broadcast tr db1 b).deliveries := by
  unfold process_one_broadcast
  dsimp only
  cases normalize_channel b.targetChannel with
  | error msg => exact ⟨rfl, rfl⟩
  | ok ch =>
    by_cases h1 : (b.contentType == "photo" && truthy b.mediaFileId) = true
    · simp only [h1, if_true]
      cases tr ⟨ch, "photo", b.content, b.mediaFileId⟩ <;> exact ⟨rfl, rfl⟩
    · simp only [h1, if_false, Bool.false_eq_true]
      by_cases h2 : (b.contentType == "text") = true
      · simp only [h2, if_true]
        cases tr ⟨ch, "text", b.content, none⟩ <;> exact ⟨rfl, rfl⟩
      · simp only [h2, if_false, Bool.false_eq_true]
        exact ⟨by trivial, by trivial⟩

/-- The per-item body appends exactly one activity entry, addressed to the
row's admin, whose action tag matches the status written back. -/
theorem process_one_broadcast_logs (tr : Delivery → SendResult) (db : Db)
    (b : Broadcast) :
    ∃ e : ActivityEntry,
      (process_one_broadcast tr db b).db.userActivity =
        db.userActivity ++ [e] ∧
      e.userId = b.adminId ∧
      e.action = (if (process_one_broadcast tr db b).statusWritten = "failed"
        then "scheduled_broadcast_failed" else "scheduled_broadcast_sent") := by
  unfold process_one_broadcast
  dsimp only
  cases normalize_channel b.targetChannel with
  | error msg => exact ⟨_, rfl, rfl, by simp⟩
  | ok ch =>
    by_cases h1 : (b.contentType == "photo" && truthy b.mediaFileId) = true
    · simp only [h1, if_true]
      cases tr ⟨ch, "photo", b.content, b.mediaFileId⟩ <;>
        exact ⟨_, rfl, rfl, by simp⟩
    · simp only [h1, if_false, Bool.false_eq_true]
      by_cases h2 : (b.contentType == "text") = true
      · simp only [h2, if_true]
        cases tr ⟨ch, "text", b.content, none⟩ <;> exact ⟨_, rfl, rfl, by simp⟩
      · simp only [h2, if_false, Bool.false_eq_true]
        exact ⟨_, rfl, rfl, by simp⟩

/-! ### Helper lemmas about fetch and the cycle -/

theorem mem_insertByTime (a b : Broadcast) (l : List Broadcast) :
    a ∈ insertByTime b l ↔ a = b ∨ a ∈ l := by
  induction l with
  | nil => simp [insertByTime]
  | cons c rest ih =>
    unfold insertByTime
    split
    · simp
    · simp [ih]
      tauto

theorem mem_sortByTime (a : Broadcast) (l : List Broadcast) :
    a ∈ sortByTime l ↔ a ∈ l := by
  induction l with
  | nil => simp [sortByTime]
  | cons b rest ih => simp [sortByTime, mem_insertByTime, ih]

/-- The fetch returns exactly the pending rows whose scheduled time has
passed. -/
theorem mem_get_pending_broadcasts (db : Db) (now : Nat) (b : Broadcast) :
    b ∈ db.get_pending_broadcasts now ↔
      b ∈ db.broadcasts ∧ b.status = "pending" ∧ b.scheduledTime ≤ now := by
  unfold Db.get_pending_broadcasts
  rw [mem_sortByTime, List.mem_filter]
  simp

/-- "No row with this id is pending" — the invariant a terminal status write
establishes. -/
def noPendingId (db : Db) (k : Nat) : Prop :=
  ∀ b ∈ db.broadcasts, b.id = k → b.status ≠ "pending"

theorem noPendingId_update_self (db : Db) (k : Nat) (s : String)
    (hs : s ≠ "pending") : noPendingId (db.update_broadcast_status k s) k := by
  intro b hb hid
  unfold Db.update_broadcast_status at hb
  simp only [List.mem_map] at hb
  obtain ⟨b0, _, hb0⟩ := hb
  by_cases h : (b0.id == k) = true
  · rw [if_pos h] at hb0
    rw [← hb0]
    exact hs
  · rw [if_neg h] at hb0
    subst hb0
    exact absurd (by simp [hid]) h

theorem noPendingId_update_mono (db : Db) (k j : Nat) (s : String)
    (hs : s ≠ "pending") (h : noPendingId db k) :
    noPendingId (db.update_broadcast_status j s) k := by
  intro b hb hid
  unfold Db.update_broadcast_status at hb
  simp only [List.mem_map] at hb
  obtain ⟨b0, hb0mem, hb0⟩ := hb
  by_cases hj : (b0.id == j) = true
  · rw [if_pos hj] at hb0
    rw [← hb0]
    exact hs
  · rw [if_neg hj] at hb0
    subst hb0
    exact h b0 hb0mem hid

theorem noPendingId_congr (db db1 : Db) (k : Nat)
    (h : db.broadcasts = db1.broadcasts) (hk : noPendingId db k) :
    noPendingId db1 k := by
  intro b hb
  exact hk b (h ▸ hb)

theorem noPendingId_process_one_self (tr : Delivery → SendResult) (db : Db)
    (b : Broadcast) : noPendingId (process_one_broadcast tr db b).db b.id := by
  obtain ⟨hstat, hbr⟩ := process_one_broadcast_shape tr db b
  refine noPendingId_congr _ _ _ hbr.symm ?_
  refine noPendingId_update_self db b.id _ ?_
  rcases hstat with h | h <;> rw [h] <;> decide

theorem noPendingId_process_one_mono (tr : Delivery → SendResult) (db : Db)
    (b : Broadcast) (k : Nat) (h : noPendingId db k) :
    noPendingId (process_one_broadcast tr db b).db k := by
  obtain ⟨hstat, hbr⟩ := process_one_broadcast_shape tr db b
  refine noPendingId_congr _ _ _ hbr.symm ?_
  refine noPendingId_update_mono db k b.id _ ?_ h
  rcases hstat with hs | hs <;> rw [hs] <;> decide

/-- After the per-item loop runs, every id that either already had no
pending rows or appears among the processed items has no pending rows. -/
theorem run_cycle_items_noPending (tr : Delivery → SendResult)
    (items : List Broadcast) (db : Db) (k : Nat)
    (h : noPendingId db k ∨ ∃ b ∈ items, b.id = k) :
    noPendingId (run_cycle_items tr db items).db k := by
  induction items generalizing db with
  | nil =>
    rcases h with h | ⟨b, hb, _⟩
    · exact h
    · exact absurd hb (List.not_mem_nil b)
  | cons b rest ih =>
    rcases h with h | ⟨c, hc, hck⟩
    · exact ih _ (Or.inl (noPendingId_process_one_mono tr db b k h))
    · rcases List.mem_cons.mp hc with rfl | hcrest
      · exact ih _ (Or.inl (hck ▸ noPendingId_process_one_self tr db c))
      · exact ih _ (Or.inr ⟨c, hcrest, hck⟩)

/-- The per-item loop records one `(id, status)` outcome per item, in
order, and each item's recorded status and attempted sends equal what
processing that item alone against the starting store would produce. -/
theorem run_cycle_items_outcomes (tr : Delivery → SendResult)
    (items : List Broadcast) (db : Db) :
    (run_cycle_items tr db items).outcomes =
      items.map (fun b => (b.id, (process_one_broadcast tr db b).statusWritten)) ∧
    (run_cycle_items tr db items).deliveries =
      (items.map (fun b => (process_one_broadcast tr db b).deliveries)).flatten := by
  induction items generalizing db with
  | nil => exact ⟨rfl, rfl⟩
  | cons b rest ih =>
    unfold run_cycle_items
    dsimp only
    obtain ⟨ho, hd⟩ := ih (process_one_broadcast tr db b).db
    have hfun1 : (fun c : Broadcast =>
        (c.id, (process_one_broadcast tr (process_one_broadcast tr db b).db c).statusWritten)) =
        (fun c : Broadcast => (c.id, (process_one_broadcast tr db c).statusWritten)) := by
      funext c
      exact congrArg (Prod.mk c.id)
        (process_one_broadcast_indep tr (process_one_broadcast tr db b).db db c).1
    have hfun2 : (fun c : Broadcast =>
        (process_one_broadcast tr (process_one_broadcast tr db b).db c).deliveries) =
        (fun c : Broadcast => (process_one_broadcast tr db c).deliveries) := by
      funext c
      exact (process_one_broadcast_indep tr (process_one_broadcast tr db b).db db c).2
    constructor
    · rw [List.map_cons, ho, hfun1]
    · rw [List.map_cons, List.flatten, hd, hfun2]

/-- The per-item loop only ever appends to the activity log. -/
theorem run_cycle_items_activity_extends (tr : Delivery → SendResult)
    (items : List Broadcast) (db : Db) :
    ∃ t, (run_cycle_items tr db items).db.userActivity =
      db.userActivity ++ t := by
  induction items generalizing db with
  | nil => exact ⟨[], by simp [run_cycle_items]⟩
  | cons b rest ih =>
    obtain ⟨e, he, _, _⟩ := process_one_broadcast_logs tr db b
    obtain ⟨t, ht⟩ := ih (process_one_broadcast tr db b).db
    exact ⟨[e] ++ t, by rw [run_cycle_items, ht, he, List.append_assoc]⟩

/-- Every item of the loop whose independent outcome is a failure gets a
`scheduled_broadcast_failed` activity entry for its admin in the final
store. -/
theorem run_cycle_items_failed_logged (tr : Delivery → SendResult)
    (items : List Broadcast) (b : Broadcast) :
    ∀ db : Db, b ∈ items →
    (process_one_broadcast tr db b).statusWritten = "failed" →
    ∃ e ∈ (run_cycle_items tr db items).db.userActivity,
      e.userId = b.adminId ∧ e.action = "scheduled_broadcast_failed" := by
  induction items with
  | nil => exact fun db hb _ => absurd hb (List.not_mem_nil b)
  | cons c rest ih =>
    intro db hb hf
    rcases List.mem_cons.mp hb with rfl | hbrest
    · obtain ⟨e, he, heu, hea⟩ := process_one_broadcast_logs tr db b
      obtain ⟨t, ht⟩ :=
        run_cycle_items_activity_extends tr rest (process_one_broadcast tr db b).db
      refine ⟨e, ?_, heu, ?_⟩
      · rw [run_cycle_items]
        dsimp only
        rw [ht, he]
        simp
      · rw [hf] at hea
        simpa using hea
    · have hf1 : (process_one_broadcast tr
          (process_one_broadcast tr db c).db b).statusWritten = "failed" := by
        rw [(process_one_broadcast_indep tr (process_one_broadcast tr db c).db db b).1]
        exact hf
      have := ih (process_one_broadcast tr db c).db hbrest hf1
      rw [run_cycle_items]
      dsimp only
      exact this

/-! ### Claim theorems -/

/-- C1: the pending-due fetch returns exactly the rows with status
`pending` and `scheduledTime <= now`, and once a scheduler cycle has
written back a terminal status for a fetched row, no row with that id is
returned by the fetch in any subsequent poll cycle. -/
theorem claim1_fetch_exact_and_terminal_excluded :
    (∀ (db : Db) (now : Nat) (b : Broadcast),
      b ∈ db.get_pending_broadcasts now ↔
        b ∈ db.broadcasts ∧ b.status = "pending" ∧ b.scheduledTime ≤ now) ∧
    (∀ (tr : Delivery → SendResult) (db : Db) (now now1 : Nat) (b : Broadcast),
      b ∈ db.get_pending_broadcasts now →
      ∀ b1 ∈ (process_scheduled_broadcasts_cycle tr db now).db.get_pending_broadcasts now1,
        b1.id ≠ b.id) := by
  refine ⟨mem_get_pending_broadcasts, ?_⟩
  intro tr db now now1 b hb b1 hb1 hid
  have hnp : noPendingId (process_scheduled_broadcasts_cycle tr db now).db b.id :=
    run_cycle_items_noPending tr (db.get_pending_broadcasts now) db b.id
      (Or.inr ⟨b, hb, rfl⟩)
  obtain ⟨hmem, hpend, _⟩ := (mem_get_pending_broadcasts _ now1 b1).mp hb1
  exact hnp b1 hmem hid hpend

/-- Witness for C1: a concrete pending row is fetched at time 10, and after
the cycle runs no trace of its id (in particular not its completed version)
is fetched at time 20. -/
theorem claim1_witness :
    bTextA ∈ dbSched.get_pending_broadcasts 10 ∧
    { bTextA with status := "completed" } ∉
      (process_scheduled_broadcasts_cycle trOk dbSched 10).db.get_pending_broadcasts 20 := by
  refine ⟨by decide, fun h => ?_⟩
  exact claim1_fetch_exact_and_terminal_excluded.2 trOk dbSched 10 20 bTextA
    (by decide) _ h rfl

/-- C4: a poll cycle records one outcome per fetched item in order, each
item's written-back status and attempted sends are what processing that item
alone would produce (so one item's delivery exception cannot abort or alter
the others), and a failing item is written back `failed` with an activity
entry naming its admin. -/
theorem claim4_per_item_isolation (tr : Delivery → SendResult) (db : Db)
    (now : Nat) :
    (process_scheduled_broadcasts_cycle tr db now).outcomes =
      (db.get_pending_broadcasts now).map
        (fun b => (b.id, (process_one_broadcast tr db b).statusWritten)) ∧
    (process_scheduled_broadcasts_cycle tr db now).deliveries =
      ((db.get_pending_broadcasts now).map
        (fun b => (process_one_broadcast tr db b).deliveries)).flatten ∧
    ∀ b ∈ db.get_pending_broadcasts now,
      (process_one_broadcast tr db b).statusWritten = "failed" →
      ∃ e ∈ (process_scheduled_broadcasts_cycle tr db now).db.userActivity,
        e.userId = b.adminId ∧ e.action = "scheduled_broadcast_failed" := by
  obtain ⟨ho, hd⟩ := run_cycle_items_outcomes tr (db.get_pending_broadcasts now) db
  refine ⟨ho, hd, ?_⟩
  intro b hb hf
  exact run_cycle_items_failed_logged tr (db.get_pending_broadcasts now) b db hb hf

/-- Witness for C4: with a transport that rejects channel `@a`, the item
aimed at `@a` fails, the item aimed at `@b` in the same cycle is still
attempted and completed, and the failure is logged for admin 9. -/
theorem claim4_witness :
    (process_scheduled_broadcasts_cycle trFailA dbSched 10).outcomes =
      [(1, "failed"), (2, "completed")] ∧
    ∃ e ∈ (process_scheduled_broadcasts_cycle trFailA dbSched 10).db.userActivity,
      e.userId = 9 ∧ e.action = "scheduled_broadcast_failed" := by
  refine ⟨(claim4_per_item_isolation trFailA dbSched 10).1.trans (by decide), ?_⟩
  exact (claim4_per_item_isolation trFailA dbSched 10).2.2 bTextA (by decide) (by decide)

/-- Counterexample for C8: with the activity-log write failing, the access
check at a concrete input does not complete with a ban verdict — the
exception propagates out (the verdict the check would otherwise return is
`true`, as the second conjunct shows). -/
theorem claim8_counterexample :
    check_user_access_f false dbEmpty 0 7 none none "cmd" =
      Except.error "log write failed" ∧
    (check_user_access dbEmpty 0 7 none none "cmd").2 = true := by
  exact ⟨rfl, by decide⟩

/-- C8 (amended): a failure of the activity-log write inside
`check_user_access` is NOT caught — the exception propagates out of the
function and no ban verdict is returned; when the write succeeds the
function behaves as the infallible embedding. -/
theorem claim8_log_failure_propagates (db : Db) (now uid : Nat)
    (un fn : Option String) (act : String) :
    check_user_access_f false db now uid un fn act =
      Except.error "log write failed" ∧
    check_user_access_f true db now uid un fn act =
      Except.ok (check_user_access db now uid un fn act) := by
  constructor
  · rfl
  · unfold check_user_access_f check_user_access
    dsimp only
    cases hban : ((db.add_user uid un fn now).log_user_activity uid act
        ("Attempted: " ++ act)).is_user_banned uid <;> simp [hban]

/-- Counterexample for C10: a pending photo row with no media file id but a
target channel whose normalization raises (`int("-x")` is a ValueError) is
written back `failed`, not `completed` — still with no delivery attempted. -/
theorem claim10_counterexample :
    (process_scheduled_broadcasts_cycle trOk dbBadChannel 10).outcomes =
      [(4, "failed")] ∧
    (process_scheduled_broadcasts_cycle trOk dbBadChannel 10).deliveries = [] := by
  decide

/-- C10 (amended): a due row whose `content_type` is `photo` with a falsy
`media_file_id`, or whose `content_type` is neither `photo` nor `text`,
triggers no delivery at all yet is written back `completed` with a
`scheduled_broadcast_sent` activity entry for its admin — provided the
channel normalization does not raise (when it raises, the row is written
back `failed`, still with no delivery attempted). -/
theorem claim10_no_send_recorded_success (tr : Delivery → SendResult)
    (db : Db) (b : Broadcast)
    (h : (b.contentType = "photo" ∧ truthy b.mediaFileId = false) ∨
         (b.contentType ≠ "photo" ∧ b.contentType ≠ "text")) :
    ((normalize_channel b.targetChannel).isOk = true →
      (process_one_broadcast tr db b).deliveries = [] ∧
      (process_one_broadcast tr db b).statusWritten = "completed" ∧
      (process_one_broadcast tr db b).db.userActivity =
        db.userActivity ++ [⟨b.adminId, "scheduled_broadcast_sent",
          "Scheduled broadcast sent to " ++ b.targetChannel⟩] ∧
      (process_one_broadcast tr db b).db.broadcasts =
        (db.update_broadcast_status b.id "completed").broadcasts) ∧
    ((normalize_channel b.targetChannel).isOk = false →
      (process_one_broadcast tr db b).deliveries = [] ∧
      (process_one_broadcast tr db b).statusWritten = "failed") := by
  have hcond : (b.contentType == "photo" && truthy b.mediaFileId) = false := by
    rcases h with ⟨hp, hm⟩ | ⟨hp, _⟩
    · simp [hm]
    · simp [hp]
  have htext : (b.contentType == "text") = false := by
    rcases h with ⟨hp, _⟩ | ⟨_, ht⟩
    · simp [hp]
    · simp [ht]
  constructor
  · intro hok
    cases hn : normalize_channel b.targetChannel with
    | error msg => rw [hn] at hok; exact absurd hok (by simp [Except.isOk, Except.toBool])
    | ok ch =>
      unfold process_one_broadcast
      rw [hn]
      dsimp only
      rw [hcond, htext]
      simp [Db.log_user_activity, Db.update_broadcast_status]
  · intro hbad
    cases hn : normalize_channel b.targetChannel with
    | ok ch => rw [hn] at hbad; exact absurd hbad (by simp [Except.isOk, Except.toBool])
    | error msg =>
      unfold process_one_broadcast
      rw [hn]
      exact ⟨rfl, rfl⟩

/-- Witness for C10 (amended): a photo row whose media file id is the empty
string (falsy) and whose channel normalizes fine is completed with no send. -/
theorem claim10_witness :
    ((bPhotoNoMedia.contentType = "photo" ∧ truthy bPhotoNoMedia.mediaFileId = false) ∨
      (bPhotoNoMedia.contentType ≠ "photo" ∧ bPhotoNoMedia.contentType ≠ "text")) ∧
    (normalize_channel bPhotoNoMedia.targetChannel).isOk = true ∧
    (process_one_broadcast trOk dbPhotoNoMedia bPhotoNoMedia).deliveries = [] ∧
    (process_one_broadcast trOk dbPhotoNoMedia bPhotoNoMedia).statusWritten = "completed" := by
  refine ⟨Or.inl ⟨rfl, by decide⟩, by decide, ?_⟩
  have := (claim10_no_send_recorded_success trOk dbPhotoNoMedia bPhotoNoMedia
    (Or.inl ⟨rfl, by decide⟩)).1 (by decide)
  exact ⟨this.1, this.2.1⟩

/-! ### Helper lemmas about the foreground handlers -/

theorem deliverBroadcastContent_spec (env : Env) (db : Db) (states : UStates)
    (uid : Nat) (t cn kl kw body : String) (media : Option String) :
    (deliverBroadcastContent env db states uid t cn kl kw body media).states =
      delState states uid ∧
    (deliverBroadcastContent env db states uid t cn kl kw body media).db.videos =
      db.videos ∧
    (deliverBroadcastContent env db states uid t cn kl kw body media).db.bannedUsers =
      db.bannedUsers ∧
    ∀ ch, normalize_channel t = Except.ok ch →
      (deliverBroadcastContent env db states uid t cn kl kw body media).deliveries =
        [⟨ch, kl, body, media⟩] := by
  unfold deliverBroadcastContent
  cases hn : normalize_channel t with
  | error msg =>
    dsimp only
    refine ⟨rfl, rfl, rfl, ?_⟩
    intro ch hch
    exact absurd hch (by simp)
  | ok ch0 =>
    dsimp only
    cases htr : env.transport ⟨ch0, kl, body, media⟩ <;> dsimp only <;>
      refine ⟨rfl, rfl, rfl, ?_⟩ <;> intro ch hch <;>
      · injection hch with h
        subst h
        rfl

/-- The banned branch of each handler: store bookkeeping happens, nothing
else — in particular the conversation states are returned untouched. -/
theorem handlers_banned_branch (env : Env) (db : Db) (states : UStates)
    (now uid : Nat) (un fn : Option String) (pid text fid : String)
    (cap : Option String) (hb : db.is_user_banned uid = true) :
    handle_photo env db states now uid un fn pid cap =
      ⟨(check_user_access db now uid un fn "photo_upload").1, states, [],
        Outcome.banned⟩ ∧
    handle_text env db states now uid un fn text =
      ⟨(check_user_access db now uid un fn "text_input").1, states, [],
        Outcome.banned⟩ ∧
    handle_video env db states now uid un fn fid =
      ⟨(check_user_access db now uid un fn "video_upload").1, states, [],
        Outcome.banned⟩ := by
  refine ⟨?_, ?_, ?_⟩
  · simp [handle_photo, check_user_access_snd, hb]
  · simp [handle_text, check_user_access_snd, hb]
  · simp [handle_video, check_user_access_snd, hb]

/-- The photo handler on a channel-content state with matching initiator,
admin rights and an in-limit caption reduces to the shared delivery tail. -/
theorem handle_photo_content_path (env : Env) (db : Db) (states : UStates)
    (now uid : Nat) (un fn : Option String) (pid : String)
    (cap : Option String) (t cn : String) (cid : Nat)
    (hb : db.is_user_banned uid = false)
    (hst : states uid = some (UState.awaitingContent t cn uid cid))
    (hadm : env.notAdmin uid = false)
    (hlen : (cap.getD "").length ≤ 1024) :
    handle_photo env db states now uid un fn pid cap =
      deliverBroadcastContent env
        (check_user_access db now uid un fn "photo_upload").1 states uid t cn
        "photo" "Photo" (cap.getD "") (some pid) := by
  have hcap : ¬((cap.getD "").length > 1024) := Nat.not_lt.mpr hlen
  simp [handle_photo, check_user_access_snd, hb, hst, hadm, hcap]

/-- The text handler on a channel-content state with matching initiator,
admin rights and an in-limit text reduces to the shared delivery tail. -/
theorem handle_text_content_path (env : Env) (db : Db) (states : UStates)
    (now uid : Nat) (un fn : Option String) (text : String)
    (t cn : String) (cid : Nat)
    (hb : db.is_user_banned uid = false)
    (hst : states uid = some (UState.awaitingContent t cn uid cid))
    (hadm : env.notAdmin uid = false)
    (hlen : text.length ≤ 4096) :
    handle_text env db states now uid un fn text =
      deliverBroadcastContent env
        (check_user_access db now uid un fn "text_input").1 states uid t cn
        "text" "Text" text none := by
  have htxt : ¬(text.length > 4096) := Nat.not_lt.mpr hlen
  simp [handle_text, check_user_access_snd, hb, hst, hadm, htxt]

/-- C9: the channel normalization maps exactly the three input forms — a
leading `@` passes through unchanged, a leading `-` is parsed as a numeric
chat id, any other bare handle gets an `@` synthesized — and the very same
normalization determines the channel the scheduler path and both foreground
broadcast paths deliver to. -/
theorem claim9_normalization_three_forms_all_paths :
    (∀ s : String, strStartsWith s "@" = true →
      normalize_channel s = Except.ok (ChannelId.byHandle s)) ∧
    (∀ s : String, strStartsWith s "@" = false → strStartsWith s "-" = true →
      normalize_channel s = (parseNegInt s).map ChannelId.byChatId ∧
      ((s.data.drop 1).length ≠ 0 → (s.data.drop 1).all Char.isDigit = true →
        normalize_channel s = Except.ok
          (ChannelId.byChatId (-(Int.ofNat (digitsToNat (s.data.drop 1))))))) ∧
    (∀ s : String, strStartsWith s "@" = false → strStartsWith s "-" = false →
      normalize_channel s = Except.ok (ChannelId.byHandle ("@" ++ s))) ∧
    (∀ (tr : Delivery → SendResult) (db : Db) (b : Broadcast) (ch : ChannelId),
      normalize_channel b.targetChannel = Except.ok ch →
      (b.contentType = "text" →
        (process_one_broadcast tr db b).deliveries =
          [⟨ch, "text", b.content, none⟩]) ∧
      (b.contentType = "photo" → truthy b.mediaFileId = true →
        (process_one_broadcast tr db b).deliveries =
          [⟨ch, "photo", b.content, b.mediaFileId⟩])) ∧
    (∀ (env : Env) (db : Db) (states : UStates) (now uid : Nat)
        (un fn : Option String) (pid : String) (cap : Option String)
        (t cn : String) (cid : Nat) (ch : ChannelId),
      db.is_user_banned uid = false →
      states uid = some (UState.awaitingContent t cn uid cid) →
      env.notAdmin uid = false →
      (cap.getD "").length ≤ 1024 →
      normalize_channel t = Except.ok ch →
      (handle_photo env db states now uid un fn pid cap).deliveries =
        [⟨ch, "photo", cap.getD "", some pid⟩]) ∧
    (∀ (env : Env) (db : Db) (states : UStates) (now uid : Nat)
        (un fn : Option String) (text t cn : String) (cid : Nat)
        (ch : ChannelId),
      db.is_user_banned uid = false →
      states uid = some (UState.awaitingContent t cn uid cid) →
      env.notAdmin uid = false →
      text.length ≤ 4096 →
      normalize_channel t = Except.ok ch →
      (handle_text env db states now uid un fn text).deliveries =
        [⟨ch, "text", text, none⟩]) := by
  refine ⟨?_, ?_, ?_, ?_, ?_, ?_⟩
  · intro s h
    simp [normalize_channel, h]
  · intro s h1 h2
    have hmain : normalize_channel s = (parseNegInt s).map ChannelId.byChatId := by
      simp [normalize_channel, h1, h2]
    refine ⟨hmain, fun h3 h4 => ?_⟩
    rw [hmain]
    unfold parseNegInt
    dsimp only
    have hcond : (decide ((s.data.drop 1).length ≠ 0) &&
        (s.data.drop 1).all Char.isDigit) = true := by
      simp only [Bool.and_eq_true, decide_eq_true_eq]
      exact ⟨h3, h4⟩
    rw [hcond]
    simp [Except.map]
  · intro s h1 h2
    simp [normalize_channel, h1, h2]
  · intro tr db b ch hch
    constructor
    · intro ht
      have hcond : (b.contentType == "photo" && truthy b.mediaFileId) = false := by
        simp [ht]
      simp only [process_one_broadcast, hch, hcond, Bool.false_eq_true, if_false,
        ht, beq_self_eq_true, if_true]
      cases tr ⟨ch, "text", b.content, none⟩ <;> rfl
    · intro hp hm
      have hcond : (b.contentType == "photo" && truthy b.mediaFileId) = true := by
        simp [hp, hm]
      simp only [process_one_broadcast, hch, hcond, if_true]
      cases tr ⟨ch, "photo", b.content, b.mediaFileId⟩ <;> rfl
  · intro env db states now uid un fn pid cap t cn cid ch hb hst hadm hlen hch
    rw [handle_photo_content_path env db states now uid un fn pid cap t cn cid
      hb hst hadm hlen]
    exact (deliverBroadcastContent_spec env
      (check_user_access db now uid un fn "photo_upload").1 states uid t cn
      "photo" "Photo" (cap.getD "") (some pid)).2.2.2 ch hch
  · intro env db states now uid un fn text t cn cid ch hb hst hadm hlen hch
    rw [handle_text_content_path env db states now uid un fn text t cn cid
      hb hst hadm hlen]
    exact (deliverBroadcastContent_spec env
      (check_user_access db now uid un fn "text_input").1 states uid t cn
      "text" "Text" text none).2.2.2 ch hch

/-- Witness for C9: the three concrete input forms, the scheduler item for
`@a`, and a foreground text broadcast all use the same normalization. -/
theorem claim9_witness :
    normalize_channel "@chan" = Except.ok (ChannelId.byHandle "@chan") ∧
    normalize_channel "-100123" = Except.ok (ChannelId.byChatId (-100123)) ∧
    normalize_channel "chan" = Except.ok (ChannelId.byHandle "@chan") ∧
    (process_one_broadcast trOk dbSched bTextA).deliveries =
      [⟨ChannelId.byHandle "@a", "text", "hello", none⟩] ∧
    (handle_text envEx dbEmpty statesBroadcast5 0 5 none none "hi").deliveries =
      [⟨ChannelId.byHandle "@chan", "text", "hi", none⟩] := by
  refine ⟨?_, ?_, ?_, ?_, ?_⟩
  · exact claim9_normalization_three_forms_all_paths.1 "@chan" (by decide)
  · exact (((claim9_normalization_three_forms_all_paths.2.1 "-100123" (by decide)
      (by decide)).2 (by decide) (by decide)).trans rfl)
  · exact claim9_normalization_three_forms_all_paths.2.2.1 "chan" (by decide)
      (by decide)
  · exact (claim9_normalization_three_forms_all_paths.2.2.2.1 trOk dbSched bTextA
      (ChannelId.byHandle "@a") rfl).1 rfl
  · exact claim9_normalization_three_forms_all_paths.2.2.2.2.2 envEx dbEmpty
      statesBroadcast5 0 5 none none "hi" "@chan" "Channel 1" 99
      (ChannelId.byHandle "@chan") (by decide) rfl (by decide) (by decide)
      rfl

theorem is_user_banned_check (db : Db) (now uid k : Nat) (un fn : Option String)
    (act : String) :
    ((check_user_access db now uid un fn act).1).is_user_banned k =
      db.is_user_banned k := by
  rw [check_user_access_fst]; rfl

theorem setState_self (m : UStates) (k : Nat) (v : UState) :
    setState m k v k = some v := by simp [setState]

theorem setState_other (m : UStates) (k j : Nat) (v : UState) (h : j ≠ k) :
    setState m k v j = m j := by simp [setState, h]

theorem delState_self (m : UStates) (k : Nat) : delState m k k = none := by
  simp [delState]

theorem delState_other (m : UStates) (k j : Nat) (h : j ≠ k) :
    delState m k j = m j := by simp [delState, h]

/-- The text handler's identity-mismatch guard: a channel-content state
bound to a different initiator is deleted and reported invalid. -/
theorem handle_text_mismatch_path (env : Env) (db : Db) (states : UStates)
    (now A B : Nat) (un fn : Option String) (text : String)
    (t cn : String) (cid : Nat)
    (hb : db.is_user_banned B = false)
    (hst : states B = some (UState.awaitingContent t cn A cid))
    (hne : A ≠ B) :
    handle_text env db states now B un fn text =
      ⟨(check_user_access db now B un fn "text_input").1, delState states B,
        [], Outcome.invalidState⟩ := by
  have hAB : (A != B) = true := by simp [hne]
  simp [handle_text, check_user_access_snd, hb, hst, hAB]

/-- The photo handler's identity-mismatch guard, same shape. -/
theorem handle_photo_mismatch_path (env : Env) (db : Db) (states : UStates)
    (now A B : Nat) (un fn : Option String) (pid : String)
    (cap : Option String) (t cn : String) (cid : Nat)
    (hb : db.is_user_banned B = false)
    (hst : states B = some (UState.awaitingContent t cn A cid))
    (hne : A ≠ B) :
    handle_photo env db states now B un fn pid cap =
      ⟨(check_user_access db now B un fn "photo_upload").1, delState states B,
        [], Outcome.invalidState⟩ := by
  have hAB : (A != B) = true := by simp [hne]
  simp [handle_photo, check_user_access_snd, hb, hst, hAB]

/-- The name-capture step of the upload dialogue. -/
theorem handle_text_name_path (env : Env) (db : Db) (states : UStates)
    (now uid : Nat) (un fn : Option String) (text fileId : String)
    (hb : db.is_user_banned uid = false)
    (hst : states uid = some (UState.awaitingName fileId)) :
    handle_text env db states now uid un fn text =
      ⟨(check_user_access db now uid un fn "text_input").1,
        setState states uid (UState.awaitingDescription fileId text), [],
        Outcome.descriptionPrompt⟩ := by
  simp [handle_text, check_user_access_snd, hb, hst]

/-- The finalize step of the upload dialogue, when the bot username is
nonempty. -/
theorem handle_text_finalize_path (env : Env) (db : Db) (states : UStates)
    (now uid : Nat) (un fn : Option String) (text fileId name : String)
    (hb : db.is_user_banned uid = false)
    (hst : states uid = some (UState.awaitingDescription fileId name))
    (hbu : env.botUsername ≠ "") :
    handle_text env db states now uid un fn text =
      ⟨((check_user_access db now uid un fn "text_input").1).add_video
          env.freshVideoId fileId name
          (if strToLower text == "skip" then "" else text),
        delState states uid, [],
        Outcome.videoFinalized env.freshVideoId
          ("https://t.me/" ++ env.botUsername ++ "?start=" ++ env.freshVideoId)⟩ := by
  simp [handle_text, check_user_access_snd, hb, hst, hbu]

/-- The video handler for an unbanned admin: it writes `awaiting_name`
unconditionally, whatever state was there before. -/
theorem handle_video_admin_path (env : Env) (db : Db) (states : UStates)
    (now uid : Nat) (un fn : Option String) (fid : String)
    (hb : db.is_user_banned uid = false)
    (hadm : env.notAdmin uid = false) :
    handle_video env db states now uid un fn fid =
      ⟨(check_user_access db now uid un fn "video_upload").1,
        setState states uid (UState.awaitingName fid), [],
        Outcome.namePrompt⟩ := by
  simp [handle_video, check_user_access_snd, hb, hadm]

/-- The text handler creates a video row only in the
`awaiting_description` branch. -/
theorem handle_text_videos_unchanged (env : Env) (db : Db) (states : UStates)
    (now uid : Nat) (un fn : Option String) (text : String)
    (hst : ∀ fid name, states uid ≠ some (UState.awaitingDescription fid name)) :
    (handle_text env db states now uid un fn text).db.videos = db.videos := by
  cases hban : db.is_user_banned uid with
  | true => simp [handle_text, check_user_access_snd, hban, check_user_access_videos]
  | false =>
    cases hs : states uid with
    | none => simp [handle_text, check_user_access_snd, hban, hs,
        check_user_access_videos]
    | some st =>
      cases st with
      | awaitingName fid =>
        simp [handle_text, check_user_access_snd, hban, hs,
          check_user_access_videos]
      | awaitingDescription fid nm => exact absurd hs (hst fid nm)
      | awaitingChannel =>
        simp [handle_text, check_user_access_snd, hban, hs,
          check_user_access_videos]
      | awaitingContent t cn init cid =>
        by_cases hg : (init != uid || env.notAdmin uid) = true
        · simp [handle_text, check_user_access_snd, hban, hs, hg,
            check_user_access_videos]
        · by_cases hlen : text.length > 4096
          · simp [handle_text, check_user_access_snd, hban, hs, hg, hlen,
              check_user_access_videos]
          · have hd := (deliverBroadcastContent_spec env
              (check_user_access db now uid un fn "text_input").1 states uid
              t cn "text" "Text" text none).2.1
            simp [handle_text, check_user_access_snd, hban, hs, hg, hlen]
            rw [hd, check_user_access_videos]

/-- The photo handler never creates a video row. -/
theorem handle_photo_videos_unchanged (env : Env) (db : Db) (states : UStates)
    (now uid : Nat) (un fn : Option String) (pid : String)
    (cap : Option String) :
    (handle_photo env db states now uid un fn pid cap).db.videos = db.videos := by
  cases hban : db.is_user_banned uid with
  | true => simp [handle_photo, check_user_access_snd, hban, check_user_access_videos]
  | false =>
    cases hs : states uid with
    | none => simp [handle_photo, check_user_access_snd, hban, hs,
        check_user_access_videos]
    | some st =>
      cases st with
      | awaitingName fid =>
        simp [handle_photo, check_user_access_snd, hban, hs,
          check_user_access_videos]
      | awaitingDescription fid nm =>
        simp [handle_photo, check_user_access_snd, hban, hs,
          check_user_access_videos]
      | awaitingChannel =>
        simp [handle_photo, check_user_access_snd, hban, hs,
          check_user_access_videos]
      | awaitingContent t cn init cid =>
        by_cases hg : (init != uid || env.notAdmin uid) = true
        · simp [handle_photo, check_user_access_snd, hban, hs, hg,
            check_user_access_videos]
        · by_cases hlen : (cap.getD "").length > 1024
          · simp [handle_photo, check_user_access_snd, hban, hs, hg, hlen,
              check_user_access_videos]
          · have hd := (deliverBroadcastContent_spec env
              (check_user_access db now uid un fn "photo_upload").1 states uid
              t cn "photo" "Photo" (cap.getD "") (some pid)).2.1
            simp [handle_photo, check_user_access_snd, hban, hs, hg, hlen]
            rw [hd, check_user_access_videos]

/-- The video handler never creates a video row. -/
theorem handle_video_videos_unchanged (env : Env) (db : Db) (states : UStates)
    (now uid : Nat) (un fn : Option String) (fid : String) :
    (handle_video env db states now uid un fn fid).db.videos = db.videos := by
  cases hban : db.is_user_banned uid with
  | true => simp [handle_video, check_user_access_snd, hban, check_user_access_videos]
  | false =>
    by_cases hadm : env.notAdmin uid = true
    · simp [handle_video, check_user_access_snd, hban, hadm,
        check_user_access_videos]
    · simp [handle_video, check_user_access_snd, hban, hadm,
        check_user_access_videos]

/-- One scheduler item never creates a video row. -/
theorem process_one_broadcast_videos (tr : Delivery → SendResult) (db : Db)
    (b : Broadcast) : (process_one_broadcast tr db b).db.videos = db.videos := by
  unfold process_one_broadcast
  dsimp only
  cases normalize_channel b.targetChannel with
  | error msg => rfl
  | ok ch =>
    by_cases h1 : (b.contentType == "photo" && truthy b.mediaFileId) = true
    · simp only [h1, if_true]
      cases tr ⟨ch, "photo", b.content, b.mediaFileId⟩ <;> rfl
    · simp only [h1, if_false, Bool.false_eq_true]
      by_cases h2 : (b.contentType == "text") = true
      · simp only [h2, if_true]
        cases tr ⟨ch, "text", b.content, none⟩ <;> rfl
      · simp only [h2, if_false, Bool.false_eq_true]
        rfl

/-- A whole scheduler cycle never creates a video row. -/
theorem run_cycle_items_videos (tr : Delivery → SendResult)
    (items : List Broadcast) (db : Db) :
    (run_cycle_items tr db items).db.videos = db.videos := by
  induction items generalizing db with
  | nil => rfl
  | cons b rest ih =>
    rw [run_cycle_items]
    dsimp only
    rw [ih (process_one_broadcast tr db b).db, process_one_broadcast_videos]

/-- `add_user` leaves a row for the identity whose last-seen stamp is `now`
and whose display fields are the given ones when present (COALESCE). -/
theorem add_user_upsert (db : Db) (uid : Nat) (un fn : Option String)
    (now : Nat) :
    ∃ u ∈ (db.add_user uid un fn now).users,
      u.userId = uid ∧ u.lastActivity = now ∧
      (un ≠ none → u.username = un) ∧ (fn ≠ none → u.firstName = fn) := by
  unfold Db.add_user
  dsimp only
  by_cases h : db.users.any (fun u => u.userId == uid) = true
  · rw [if_pos h]
    obtain ⟨u0, hu0, hu0id⟩ := List.any_eq_true.mp h
    refine ⟨_, List.mem_map_of_mem _ hu0, ?_⟩
    rw [if_pos hu0id]
    refine ⟨by simpa using hu0id, rfl, ?_, ?_⟩
    · intro hun
      cases un with
      | none => exact absurd rfl hun
      | some s => rfl
    · intro hfn
      cases fn with
      | none => exact absurd rfl hfn
      | some s => rfl
  · rw [if_neg h]
    have hmem : (⟨uid, un, fn, now, now⟩ : UserRow) ∈
        db.users ++ [⟨uid, un, fn, now, now⟩] := by simp
    refine ⟨_, List.mem_map_of_mem _ hmem, ?_⟩
    rw [if_pos (by simp)]
    refine ⟨rfl, rfl, ?_, ?_⟩
    · intro hun
      cases un with
      | none => exact absurd rfl hun
      | some s => rfl
    · intro hfn
      cases fn with
      | none => exact absurd rfl hfn
      | some s => rfl

/-- C2: a conversation state carrying `initiator_id = A`, stored under key
`B`, is never advanced by a content event (text or photo) from `B ≠ A`: the
identity-mismatch guard deletes the state and reports the invalid-state
outcome instead of delivering, on both paths; other users' states are
untouched. -/
theorem claim2_mismatch_never_advances (env : Env) (db : Db) (states : UStates)
    (now A B : Nat) (un fn : Option String) (text pid : String)
    (cap : Option String) (t cn : String) (cid : Nat)
    (hb : db.is_user_banned B = false)
    (hst : states B = some (UState.awaitingContent t cn A cid))
    (hne : A ≠ B) :
    ((handle_text env db states now B un fn text).states B = none ∧
     (handle_text env db states now B un fn text).outcome = Outcome.invalidState ∧
     (handle_text env db states now B un fn text).deliveries = [] ∧
     ∀ k, k ≠ B → (handle_text env db states now B un fn text).states k = states k) ∧
    ((handle_photo env db states now B un fn pid cap).states B = none ∧
     (handle_photo env db states now B un fn pid cap).outcome = Outcome.invalidState ∧
     (handle_photo env db states now B un fn pid cap).deliveries = [] ∧
     ∀ k, k ≠ B →
       (handle_photo env db states now B un fn pid cap).states k = states k) := by
  rw [handle_text_mismatch_path env db states now A B un fn text t cn cid hb hst hne,
    handle_photo_mismatch_path env db states now A B un fn pid cap t cn cid hb hst hne]
  exact ⟨⟨delState_self states B, rfl, rfl, fun k hk => delState_other states B k hk⟩,
    ⟨delState_self states B, rfl, rfl, fun k hk => delState_other states B k hk⟩⟩

/-- Witness for C2: user 7 holds a state bound to initiator 5; a text and a
photo from 7 both clear it and deliver nothing. -/
theorem claim2_witness :
    dbEmpty.is_user_banned 7 = false ∧
    statesHijack 7 = some (UState.awaitingContent "@chan" "Channel 1" 5 99) ∧
    (handle_text envEx dbEmpty statesHijack 0 7 none none "x").states 7 = none ∧
    (handle_photo envEx dbEmpty statesHijack 0 7 none none "p" none).states 7 = none ∧
    (handle_text envEx dbEmpty statesHijack 0 7 none none "x").deliveries = [] := by
  have h := claim2_mismatch_never_advances envEx dbEmpty statesHijack 0 5 7
    none none "x" "p" none "@chan" "Channel 1" 99 (by decide) rfl (by decide)
  exact ⟨by decide, rfl, h.1.1, h.2.1, h.1.2.2.1⟩

/-- C3: the access gate returns false iff a ban record exists; every call
(also a denied one) first upserts the identity's last-seen/display info and
appends the `Attempted: <action>` activity entry; and a denied call causes
no conversation-state mutation in any handler. -/
theorem claim3_access_gate_contract :
    (∀ (db : Db) (now uid : Nat) (un fn : Option String) (act : String),
      (check_user_access db now uid un fn act).2 = false ↔
        db.is_user_banned uid = true) ∧
    (∀ (db : Db) (now uid : Nat) (un fn : Option String) (act : String),
      (check_user_access db now uid un fn act).1.userActivity =
        db.userActivity ++ [⟨uid, act, "Attempted: " ++ act⟩]) ∧
    (∀ (db : Db) (now uid : Nat) (un fn : Option String) (act : String),
      ∃ u ∈ (check_user_access db now uid un fn act).1.users,
        u.userId = uid ∧ u.lastActivity = now ∧
        (un ≠ none → u.username = un) ∧ (fn ≠ none → u.firstName = fn)) ∧
    (∀ (env : Env) (db : Db) (states : UStates) (now uid : Nat)
        (un fn : Option String) (text pid fid : String) (cap : Option String),
      db.is_user_banned uid = true →
      (handle_text env db states now uid un fn text).states = states ∧
      (handle_photo env db states now uid un fn pid cap).states = states ∧
      (handle_video env db states now uid un fn fid).states = states) := by
  refine ⟨?_, ?_, ?_, ?_⟩
  · intro db now uid un fn act
    rw [check_user_access_snd]
    cases db.is_user_banned uid <;> simp
  · exact fun db now uid un fn act => check_user_access_activity db now uid un fn act
  · intro db now uid un fn act
    rw [check_user_access_fst]
    exact add_user_upsert db uid un fn now
  · intro env db states now uid un fn text pid fid cap hban
    obtain ⟨hp, ht, hv⟩ := handlers_banned_branch env db states now uid un fn
      pid text fid cap hban
    exact ⟨by rw [ht], by rw [hp], by rw [hv]⟩

/-- Witness for C3: banned user 7 is denied, the denial is logged, the user
row is upserted, and a handler invocation by 7 leaves the conversation
states untouched. -/
theorem claim3_witness :
    ((check_user_access dbBanned7 3 7 (some "u") none "start").2 = false) ∧
    (check_user_access dbBanned7 3 7 (some "u") none "start").1.userActivity =
      [⟨7, "start", "Attempted: start"⟩] ∧
    (∃ u ∈ (check_user_access dbBanned7 3 7 (some "u") none "start").1.users,
      u.userId = 7 ∧ u.lastActivity = 3 ∧
      ((some "u" : Option String) ≠ none → u.username = some "u") ∧
      ((none : Option String) ≠ none → u.firstName = none)) ∧
    (handle_text envEx dbBanned7 statesBroadcast5 3 7 (some "u") none "hi").states =
      statesBroadcast5 := by
  refine ⟨?_, ?_, ?_, ?_⟩
  · exact (claim3_access_gate_contract.1 dbBanned7 3 7 (some "u") none "start").mpr
      (by decide)
  · exact (claim3_access_gate_contract.2.1 dbBanned7 3 7 (some "u") none "start").trans
      (by decide)
  · exact claim3_access_gate_contract.2.2.1 dbBanned7 3 7 (some "u") none "start"
  · exact (claim3_access_gate_contract.2.2.2 envEx dbBanned7 statesBroadcast5 3 7
      (some "u") none "hi" "p" "f" none (by decide)).1

/-- C5: an admin completing the two-step upload dialogue (video file, then
name, then description — `skip` meaning empty) ends with exactly one new
video row carrying the supplied fields, a shareable link minted from the
fresh video id, and the conversation state deleted (Idle); and the
finalize branch is the only place any embedded operation creates a video
row. -/
theorem claim5_upload_dialogue_one_video :
    (∀ (env : Env) (db : Db) (states : UStates) (now1 now2 now3 uid : Nat)
        (un fn : Option String) (fileId nameText descText : String)
        (r1 r2 r3 : HRes),
      db.is_user_banned uid = false →
      env.notAdmin uid = false →
      env.botUsername ≠ "" →
      r1 = handle_video env db states now1 uid un fn fileId →
      r2 = handle_text env r1.db r1.states now2 uid un fn nameText →
      r3 = handle_text env r2.db r2.states now3 uid un fn descText →
      r3.db.videos = db.videos ++
        [⟨env.freshVideoId, fileId, nameText,
          if strToLower descText == "skip" then "" else descText⟩] ∧
      r3.states uid = none ∧
      (∀ k, k ≠ uid → r3.states k = states k) ∧
      r3.outcome = Outcome.videoFinalized env.freshVideoId
        ("https://t.me/" ++ env.botUsername ++ "?start=" ++ env.freshVideoId) ∧
      r1.db.videos = db.videos ∧ r2.db.videos = db.videos) ∧
    (∀ (env : Env) (db : Db) (states : UStates) (now uid : Nat)
        (un fn : Option String) (text : String),
      (∀ fid name, states uid ≠ some (UState.awaitingDescription fid name)) →
      (handle_text env db states now uid un fn text).db.videos = db.videos) ∧
    (∀ (env : Env) (db : Db) (states : UStates) (now uid : Nat)
        (un fn : Option String) (pid : String) (cap : Option String),
      (handle_photo env db states now uid un fn pid cap).db.videos = db.videos) ∧
    (∀ (env : Env) (db : Db) (states : UStates) (now uid : Nat)
        (un fn : Option String) (fid : String),
      (handle_video env db states now uid un fn fid).db.videos = db.videos) ∧
    (∀ (tr : Delivery → SendResult) (db : Db) (now : Nat),
      (process_scheduled_broadcasts_cycle tr db now).db.videos = db.videos) := by
  refine ⟨?_, handle_text_videos_unchanged, handle_photo_videos_unchanged,
    handle_video_videos_unchanged,
    fun tr db now => run_cycle_items_videos tr (db.get_pending_broadcasts now) db⟩
  intro env db states now1 now2 now3 uid un fn fileId nameText descText
    r1 r2 r3 hb hadm hbu e1 e2 e3
  rw [handle_video_admin_path env db states now1 uid un fn fileId hb hadm] at e1
  subst e1
  dsimp only at e2
  have hb2 : ((check_user_access db now1 uid un fn "video_upload").1).is_user_banned
      uid = false := by rw [is_user_banned_check]; exact hb
  rw [handle_text_name_path _ _ _ now2 uid un fn nameText fileId hb2
    (setState_self states uid (UState.awaitingName fileId))] at e2
  subst e2
  dsimp only at e3
  have hb3 : ((check_user_access
      (check_user_access db now1 uid un fn "video_upload").1 now2 uid un fn
      "text_input").1).is_user_banned uid = false := by
    rw [is_user_banned_check, is_user_banned_check]; exact hb
  rw [handle_text_finalize_path _ _ _ now3 uid un fn descText fileId nameText hb3
    (setState_self _ uid (UState.awaitingDescription fileId nameText)) hbu] at e3
  subst e3
  refine ⟨?_, delState_self _ _, ?_, rfl, ?_, ?_⟩
  · show (((check_user_access _ now3 uid un fn "text_input").1).add_video
      env.freshVideoId fileId nameText _).videos = _
    simp [Db.add_video, check_user_access_videos]
  · intro k hk
    show delState (setState (setState states uid _) uid _) uid k = states k
    rw [delState_other _ _ _ hk, setState_other _ _ _ _ hk,
      setState_other _ _ _ _ hk]
  · exact check_user_access_videos db now1 uid un fn "video_upload"
  · show ((check_user_access _ now2 uid un fn "text_input").1).videos = db.videos
    rw [check_user_access_videos, check_user_access_videos]

/-- Witness for C5: admin 5 uploads file `f7`, names it `My clip`, answers
`skip`; exactly the one video row exists afterwards and the state is gone. -/
theorem claim5_witness :
    (handle_text envEx
      (handle_text envEx (handle_video envEx dbEmpty statesIdle 0 5 none none "f7").db
        (handle_video envEx dbEmpty statesIdle 0 5 none none "f7").states
        1 5 none none "My clip").db
      (handle_text envEx (handle_video envEx dbEmpty statesIdle 0 5 none none "f7").db
        (handle_video envEx dbEmpty statesIdle 0 5 none none "f7").states
        1 5 none none "My clip").states
      2 5 none none "skip").db.videos = [⟨"vid-1", "f7", "My clip", ""⟩] ∧
    (handle_text envEx
      (handle_text envEx (handle_video envEx dbEmpty statesIdle 0 5 none none "f7").db
        (handle_video envEx dbEmpty statesIdle 0 5 none none "f7").states
        1 5 none none "My clip").db
      (handle_text envEx (handle_video envEx dbEmpty statesIdle 0 5 none none "f7").db
        (handle_video envEx dbEmpty statesIdle 0 5 none none "f7").states
        1 5 none none "My clip").states
      2 5 none none "skip").states 5 = none := by
  have h := claim5_upload_dialogue_one_video.1 envEx dbEmpty statesIdle 0 1 2 5
    none none "f7" "My clip" "skip" _ _ _ (by decide) (by decide) (by decide)
    rfl rfl rfl
  exact ⟨h.1.trans (by decide), h.2.1⟩

/-- Counterexample for C6: admin 5 is mid-broadcast (`awaiting_content`
bound to initiator 5); a video upload from 5 does NOT leave that state
untouched — it is clobbered to `awaiting_name`. -/
theorem claim6_counterexample :
    statesBroadcast5 5 = some (UState.awaitingContent "@chan" "Channel 1" 5 99) ∧
    (handle_video envEx dbEmpty statesBroadcast5 0 5 none none "file7").states 5 =
      some (UState.awaitingName "file7") ∧
    (handle_video envEx dbEmpty statesBroadcast5 0 5 none none "file7").states 5 ≠
      statesBroadcast5 5 := by
  refine ⟨rfl, ?_, ?_⟩ <;> decide

/-- C6 (amended): a media-upload event from an unbanned admin
unconditionally replaces that admin's own conversation state with
`awaiting_name {fileRef}` — the source has no existing-state check, so an
in-flight dialogue of a different type is clobbered; only the sender's own
entry is affected (other users' states are preserved). -/
theorem claim6_media_upload_overwrites (env : Env) (db : Db) (states : UStates)
    (now uid : Nat) (un fn : Option String) (fid : String)
    (hb : db.is_user_banned uid = false)
    (hadm : env.notAdmin uid = false) :
    (handle_video env db states now uid un fn fid).states uid =
      some (UState.awaitingName fid) ∧
    ∀ k, k ≠ uid → (handle_video env db states now uid un fn fid).states k =
      states k := by
  rw [handle_video_admin_path env db states now uid un fn fid hb hadm]
  exact ⟨setState_self _ _ _, fun k hk => setState_other _ _ _ _ hk⟩

/-- Witness for C6 (amended): concrete overwrite, with user 8's state (none)
preserved. -/
theorem claim6_witness :
    dbEmpty.is_user_banned 5 = false ∧ envEx.notAdmin 5 = false ∧
    (handle_video envEx dbEmpty statesBroadcast5 0 5 none none "file7").states 5 =
      some (UState.awaitingName "file7") ∧
    (handle_video envEx dbEmpty statesBroadcast5 0 5 none none "file7").states 8 =
      statesBroadcast5 8 := by
  have h := claim6_media_upload_overwrites envEx dbEmpty statesBroadcast5 0 5
    none none "file7" (by decide) (by decide)
  exact ⟨by decide, by decide, h.1, h.2 8 (by decide)⟩

/-- C7: oversized content (photo caption over 1024, text over 4096) is
rejected before any delivery attempt with the conversation state left
as-is; in-limit content always ends with the state deleted (Idle),
whatever the transport outcome — the state is single-use. -/
theorem claim7_limits_and_single_use (env : Env) (db : Db) (states : UStates)
    (now uid : Nat) (un fn : Option String) (text pid : String)
    (cap : Option String) (t cn : String) (cid : Nat)
    (hb : db.is_user_banned uid = false)
    (hst : states uid = some (UState.awaitingContent t cn uid cid))
    (hadm : env.notAdmin uid = false) :
    ((cap.getD "").length > 1024 →
      (handle_photo env db states now uid un fn pid cap).states = states ∧
      (handle_photo env db states now uid un fn pid cap).deliveries = [] ∧
      (handle_photo env db states now uid un fn pid cap).outcome =
        Outcome.validationFailure) ∧
    (text.length > 4096 →
      (handle_text env db states now uid un fn text).states = states ∧
      (handle_text env db states now uid un fn text).deliveries = [] ∧
      (handle_text env db states now uid un fn text).outcome =
        Outcome.validationFailure) ∧
    ((cap.getD "").length ≤ 1024 →
      (handle_photo env db states now uid un fn pid cap).states uid = none) ∧
    (text.length ≤ 4096 →
      (handle_text env db states now uid un fn text).states uid = none) := by
  refine ⟨?_, ?_, ?_, ?_⟩
  · intro hlen
    have he : handle_photo env db states now uid un fn pid cap =
        ⟨(check_user_access db now uid un fn "photo_upload").1, states, [],
          Outcome.validationFailure⟩ := by
      simp [handle_photo, check_user_access_snd, hb, hst, hadm, hlen]
    rw [he]
    exact ⟨rfl, rfl, rfl⟩
  · intro hlen
    have he : handle_text env db states now uid un fn text =
        ⟨(check_user_access db now uid un fn "text_input").1, states, [],
          Outcome.validationFailure⟩ := by
      simp [handle_text, check_user_access_snd, hb, hst, hadm, hlen]
    rw [he]
    exact ⟨rfl, rfl, rfl⟩
  · intro hlen
    rw [handle_photo_content_path env db states now uid un fn pid cap t cn cid
      hb hst hadm hlen]
    rw [(deliverBroadcastContent_spec env
      (check_user_access db now uid un fn "photo_upload").1 states uid t cn
      "photo" "Photo" (cap.getD "") (some pid)).1]
    exact delState_self _ _
  · intro hlen
    rw [handle_text_content_path env db states now uid un fn text t cn cid
      hb hst hadm hlen]
    rw [(deliverBroadcastContent_spec env
      (check_user_access db now uid un fn "text_input").1 states uid t cn
      "text" "Text" text none).1]
    exact delState_self _ _

set_option maxRecDepth 8000 in
/-- Witness for C7: a 1025-character caption is rejected with the state
kept; an in-limit text ends with the state deleted. -/
theorem claim7_witness :
    (longCap.getD "").length > 1024 ∧
    (handle_photo envEx dbEmpty statesBroadcast5 0 5 none none "p" longCap).outcome =
      Outcome.validationFailure ∧
    (handle_photo envEx dbEmpty statesBroadcast5 0 5 none none "p" longCap).states 5 =
      some (UState.awaitingContent "@chan" "Channel 1" 5 99) ∧
    (handle_text envEx dbEmpty statesBroadcast5 0 5 none none "ok").states 5 =
      none := by
  have h := claim7_limits_and_single_use envEx dbEmpty statesBroadcast5 0 5
    none none "ok" "p" longCap "@chan" "Channel 1" 99 (by decide) rfl (by decide)
  have hlen : (longCap.getD "").length > 1024 := by decide
  refine ⟨hlen, (h.1 hlen).2.2, ?_, h.2.2.2 (by decide)⟩
  rw [(h.1 hlen).1]
  decide
